import Mathlib

/-!
# Verification of the `energysys_components` energy-conversion core

Shallow embedding, over `ℚ`, of the per-step state-transition engine of
`energysys_components/energy_conversion.py` (class `EnergyConversionComponent`
with `step_action`, `_calc_P_change`, `_calc_E_change`,
`step_action_stationary`) and of the storage component
`energysys_components/energy_storage.py` (`EnergyStorageComponent.apply_control`).

Modelling conventions:
* Python floats are modelled as exact rationals (`ℚ`); `round(x, 6)` is
  modelled as rounding to the nearest multiple of `10⁻⁶` (`round6`).
* scipy's `interp1d(kind='linear', bounds_error=False, fill_value=(y₀, yₙ))`
  is modelled by `interp1d` below: flat extrapolation outside the sampled
  range, linear interpolation between bracketing samples.
* Logging calls have no effect on the computation and are dropped.
* `self.state = state_1` / `return state_1` of `step_action` is modelled by
  `EnergyConversionComponent.step_action` returning the optional returned
  state together with the updated component record.
* In `_calc_E_change`, the source line 707 reads `E_in_op =` with an empty
  right-hand side (a dangling fragment left next to a `Todo` comment);
  `E_in_op` is unconditionally reassigned nine lines further down before any
  use, so the fragment binds nothing and is omitted from the embedding.
* Fields of `ECCParameter` that the physics never reads (name, energy-carrier
  tags, techno-economic data) are omitted.
-/

namespace EnergySys

/-- Linear interpolation of scipy's
`interp1d(xs, ys, kind='linear', bounds_error=False, fill_value=(ys[0], ys[-1]))`:
below the first sample the first y-value, above the last sample the last
y-value, linear in between.  The table is a list of `(x, y)` pairs. -/
def interpSeg : ℚ × ℚ → List (ℚ × ℚ) → ℚ → ℚ
  | p, [], _ => p.2
  | p, q :: rest, x =>
      if x ≤ q.1 then p.2 + (q.2 - p.2) * (x - p.1) / (q.1 - p.1)
      else interpSeg q rest x

/-- Entry point of the interpolator: flat below the first sample. -/
def interp1d : List (ℚ × ℚ) → ℚ → ℚ
  | [], _ => 0
  | p :: rest, x => if x ≤ p.1 then p.2 else interpSeg p rest x

/-- Python's `round(x, 6)`: rounding to the nearest multiple of `10⁻⁶`
(ties modelled as round-half-up). -/
def round6 (x : ℚ) : ℚ := (round (x * 1000000) : ℤ) / 1000000

/-- `ECCParameter`: the fields of the Python dataclass that the physics
reads.  Curves are `(x, y)` sample tables. -/
structure ECCParameter where
  t_start : ℚ
  E_start : ℚ
  eta_start : ℚ
  P_out_rated : ℚ
  P_out_min_rel : ℚ
  p_change_pos : ℚ
  p_change_neg : ℚ
  E_loadchange : List (ℚ × ℚ)
  eta : List (ℚ × ℚ)
  eta_mc : List (ℚ × ℚ)
  t_cooldown : ℚ
  split_P_sd : ℚ × ℚ
  fact_P_heat_P_Loss : ℚ
  deriving DecidableEq

namespace ECCParameter

/-- `__post_init__`: `E_start_heatup = E_start * eta_start`. -/
def E_start_heatup (p : ECCParameter) : ℚ := p.E_start * p.eta_start

/-- `__post_init__`: `E_start_loss = E_start - E_start_heatup`. -/
def E_start_loss (p : ECCParameter) : ℚ := p.E_start - p.E_start_heatup

/-- `__post_init__`: interpolator `eta(output power rel)`. -/
def eta_ip (p : ECCParameter) (x : ℚ) : ℚ := interp1d p.eta x

/-- `__post_init__`: interpolator `eta_mc(output power rel)`. -/
def eta_mc_ip (p : ECCParameter) (x : ℚ) : ℚ := interp1d p.eta_mc x

/-- `__post_init__`: load change energy interpolator. -/
def E_loadchange_ip (p : ECCParameter) (x : ℚ) : ℚ := interp1d p.E_loadchange x

/-- `__post_init__`: `P_out_min = P_out_min_rel * P_out_rated`. -/
def P_out_min (p : ECCParameter) : ℚ := p.P_out_min_rel * p.P_out_rated

/-- `__post_init__`: `P_in_min = P_out_min / eta_ip(P_out_min_rel)`. -/
def P_in_min (p : ECCParameter) : ℚ := p.P_out_min / p.eta_ip p.P_out_min_rel

/-- `__post_init__`: `P_in_mc_min = P_out_min / eta_mc_ip(P_out_min_rel)`. -/
def P_in_mc_min (p : ECCParameter) : ℚ := p.P_out_min / p.eta_mc_ip p.P_out_min_rel

/-- `__post_init__`: `split_P_sd1 = split_P_sd[0] / sum(split_P_sd)`. -/
def split_P_sd1 (p : ECCParameter) : ℚ :=
  p.split_P_sd.1 / (p.split_P_sd.1 + p.split_P_sd.2)

/-- `__post_init__`: `split_P_sd2 = split_P_sd[1] / sum(split_P_sd)`. -/
def split_P_sd2 (p : ECCParameter) : ℚ :=
  p.split_P_sd.2 / (p.split_P_sd.1 + p.split_P_sd.2)

end ECCParameter

/-- `ECCState`: the state dataclass of the energy conversion component.
All fields default to `0`, as in the Python dataclass. -/
structure ECCState where
  P_in : ℚ := 0
  E_in : ℚ := 0
  P_in_mc : ℚ := 0
  E_in_mc : ℚ := 0
  P_in_sd1 : ℚ := 0
  E_in_sd1 : ℚ := 0
  P_in_sd2 : ℚ := 0
  E_in_sd2 : ℚ := 0
  P_out : ℚ := 0
  E_out : ℚ := 0
  P_loss : ℚ := 0
  E_loss : ℚ := 0
  P_heat : ℚ := 0
  E_heat : ℚ := 0
  heatup : ℚ := 0
  eta : ℚ := 0
  eta_mc : ℚ := 0
  opex_Eur : ℚ := 0
  E_balance : ℚ := 0
  deriving DecidableEq

/-- The artificial current relative output power `P_out_rel_0` computed at
the head of both `step_action` and `_calc_P_change`:
`round(heatup * P_out_min_rel, 6)` below full heatup, else
`round(P_out / P_out_rated, 6)`. -/
def P_out_rel_0 (p : ECCParameter) (st : ECCState) : ℚ :=
  if st.heatup < 1 then round6 (st.heatup * p.P_out_min_rel)
  else round6 (st.P_out / p.P_out_rated)

/-- The six-branch body of `_calc_P_change` (everything before the
`operation_time` epsilon patch): returns `(P_out_rel_1, heatup, operation_time)`. -/
def calc_P_change_raw (p : ECCParameter) (ts : ℚ) (st : ECCState)
    (P_out_rel_targ : ℚ) : ℚ × ℚ × ℚ :=
  let P0 : ℚ := P_out_rel_0 p st
  let r : ℚ × ℚ :=
  if P0 ≤ P_out_rel_targ then
    -- positive load changes and load holding
    if P_out_rel_targ < p.P_out_min_rel then
      -- [S->S]
      (min P_out_rel_targ (P0 + ts / p.t_start * p.P_out_min_rel), 0)
    else if P0 < p.P_out_min_rel then
      -- [S->O (potentially)]
      let start_P_delta_rel := p.P_out_min_rel - P0
      let start_time := start_P_delta_rel / p.P_out_min_rel * p.t_start
      if start_time ≤ ts then
        let operation_time := ts - start_time
        (min P_out_rel_targ
          (p.P_out_min_rel + p.p_change_pos / 100 * operation_time),
         operation_time)
      else
        (min P_out_rel_targ (P0 + ts / p.t_start * p.P_out_min_rel), 0)
    else
      -- [O->O]
      (min P_out_rel_targ (P0 + p.p_change_pos / 100 * ts), ts)
  else
    -- negative load changes
    if p.P_out_min_rel ≤ P_out_rel_targ then
      -- [O->O]
      (max P_out_rel_targ (P0 - p.p_change_neg / 100 * ts), ts)
    else if p.P_out_min_rel ≤ P0 then
      -- [O->S (potentially)]
      let unload_P_delta_rel := P0 - p.P_out_min_rel
      let unload_time := unload_P_delta_rel / (p.p_change_neg / 100)
      if unload_time < ts then
        (max P_out_rel_targ
          (p.P_out_min_rel * (1 - (ts - unload_time) / p.t_cooldown)),
         unload_time)
      else
        (max P_out_rel_targ (P0 - p.p_change_neg / 100 * ts), ts)
    else
      -- [S->S]
      (max P_out_rel_targ (P0 - p.P_out_min_rel / p.t_cooldown * ts), 0)
  (r.1, min 1 (r.1 / p.P_out_min_rel), r.2)

/-- `_calc_P_change`: the branch body followed by the epsilon patch
`if heatup == 1 and operation_time == 0: operation_time = 1e-5`. -/
def calc_P_change (p : ECCParameter) (ts : ℚ) (st : ECCState)
    (P_out_rel_targ : ℚ) : ℚ × ℚ × ℚ :=
  let r := calc_P_change_raw p ts st P_out_rel_targ
  if r.2.1 = 1 ∧ r.2.2 = 0 then (r.1, r.2.1, 1 / 100000) else r

/-- The intermediate quantities each branch of `_calc_E_change` computes
before the common summation/balance tail (`_op` and `_no` portions and the
power fields assigned inside the branches). -/
structure BranchVals where
  E_in_op : ℚ
  E_in_mc_op : ℚ
  E_in_sd1_op : ℚ
  E_in_sd2_op : ℚ
  E_loss_op : ℚ
  E_out : ℚ
  P_out : ℚ
  P_in_mc_op : ℚ
  E_in_no : ℚ
  E_in_sd1_no : ℚ
  E_in_sd2_no : ℚ
  E_loss_no : ℚ
  P_in : ℚ
  P_in_sd1 : ℚ
  P_in_sd2 : ℚ
  P_loss : ℚ
  deriving DecidableEq

/-- The dictionary returned by `_calc_E_change` (the keys written by the
final `state_1.update(...)`). -/
structure EFlows where
  E_in : ℚ
  E_in_mc : ℚ
  E_in_sd1 : ℚ
  E_in_sd2 : ℚ
  E_out : ℚ
  E_loss : ℚ
  E_heat : ℚ
  E_balance : ℚ
  P_in : ℚ
  P_in_mc : ℚ
  P_in_sd1 : ℚ
  P_in_sd2 : ℚ
  P_out : ℚ
  P_loss : ℚ
  P_heat : ℚ
  deriving DecidableEq

/-- Branch `[NL->NL]` of `_calc_E_change` (`heatup_1 < 1` and
`P_out_rel_1 >= P_out_rel_0`): compensation plus heatup-change energy. -/
def branchNLNL (p : ECCParameter) (ts : ℚ) (st : ECCState)
    (P_out_rel_1 P_out_rel_0 heatup_1 : ℚ) : BranchVals :=
  let E_compens : ℚ :=
    if P_out_rel_1 = P_out_rel_0 + ts / p.t_start * p.P_out_min_rel then 0
    else if P_out_rel_1 - ts / p.t_start * p.P_out_min_rel < 0 then 0
    else if P_out_rel_1 = P_out_rel_0 then ts / p.t_cooldown * p.E_start
    else
      let P_out_rel_1_max := P_out_rel_0 + ts / p.t_start * p.P_out_min_rel
      let fact := (P_out_rel_1 - P_out_rel_0) / (P_out_rel_1_max - P_out_rel_0)
      fact * (ts / p.t_cooldown * p.E_start)
  let E_compens_loss := (1 - p.eta_start) * E_compens
  let E_startup := (heatup_1 - st.heatup) * p.E_start
  let E_startup_loss := (heatup_1 - st.heatup) * p.E_start_loss
  let E_in_no := E_compens + E_startup
  let E_in_sd1_no := p.split_P_sd1 * E_in_no
  let E_in_sd2_no := p.split_P_sd2 * E_in_no
  let E_loss_no := E_compens_loss + E_startup_loss
  { E_in_op := 0
    E_in_mc_op := 0
    E_in_sd1_op := 0
    E_in_sd2_op := 0
    E_loss_op := 0
    E_out := 0
    P_out := 0
    P_in_mc_op := 0
    E_in_no := E_in_no
    E_in_sd1_no := E_in_sd1_no
    E_in_sd2_no := E_in_sd2_no
    E_loss_no := E_loss_no
    P_in := E_in_no / (ts / 60)
    P_in_sd1 := E_in_sd1_no / (ts / 60)
    P_in_sd2 := E_in_sd2_no / (ts / 60)
    P_loss := E_loss_no / (ts / 60) }

/-- Branch `[xx->NL]` of `_calc_E_change` (`heatup_1 < 1` and
`P_out_rel_1 < P_out_rel_0`): operation part down to minimum load (only when
the step started at full heatup), then coast-down with optional
superposed compensation input. -/
def branchToNL (p : ECCParameter) (ts : ℚ) (st : ECCState)
    (P_out_rel_1 P_out_rel_0 operation_time : ℚ) : BranchVals :=
  let opPart : ℚ × ℚ × ℚ × ℚ × ℚ × ℚ :=
    if st.heatup = 1 then
      let E_loadchange := p.E_loadchange_ip p.P_out_min_rel -
        p.E_loadchange_ip P_out_rel_0
      let E_in_loadchange := max 0 E_loadchange
      let E_loss_op_loadchange := |min 0 E_loadchange|
      let E_out := (st.P_out + p.P_out_min) / 2 * (operation_time / 60)
      let E_in_mc_op := (st.P_in_mc + p.P_in_mc_min) / 2 * (operation_time / 60)
      let E_in_op_wo_loadchange := (st.P_in + p.P_in_min) / 2 *
        (operation_time / 60)
      let E_in_op := E_in_op_wo_loadchange + E_in_loadchange
      let E_in_sd_op_wo_loadchange := E_in_op - E_in_mc_op
      let E_in_sd_op := E_in_sd_op_wo_loadchange + E_in_loadchange
      let E_loss_op_wo_loadchange := E_in_op_wo_loadchange - E_out
      let E_loss_op := E_loss_op_wo_loadchange + E_loss_op_loadchange
      (E_in_op, E_in_mc_op, p.split_P_sd1 * E_in_sd_op,
       p.split_P_sd2 * E_in_sd_op, E_loss_op, E_out)
    else
      (0, 0, 0, 0, 0, 0)
  let cooldown_time := ts - operation_time
  let P_out_no_rel_st := min P_out_rel_0 p.P_out_min_rel
  let P_diff_no_rel_max :=
    min (p.P_out_min_rel / p.t_cooldown * cooldown_time) P_out_no_rel_st
  let noPart : ℚ × ℚ × ℚ :=
    if P_out_no_rel_st - P_diff_no_rel_max < P_out_rel_1 then
      let P_diff_no := P_out_rel_1 - (P_out_no_rel_st - P_diff_no_rel_max)
      let fact := P_diff_no / P_diff_no_rel_max
      let E_in_no := fact * (cooldown_time / p.t_cooldown * p.E_start)
      (E_in_no, p.split_P_sd1 * E_in_no, p.split_P_sd2 * E_in_no)
    else
      (0, 0, 0)
  let E_in_no := noPart.1
  let E_loss_no := cooldown_time / p.t_cooldown * p.E_start * p.eta_start +
    E_in_no * (1 - p.eta_start)
  { E_in_op := opPart.1
    E_in_mc_op := opPart.2.1
    E_in_sd1_op := opPart.2.2.1
    E_in_sd2_op := opPart.2.2.2.1
    E_loss_op := opPart.2.2.2.2.1
    E_out := opPart.2.2.2.2.2
    P_out := 0
    P_in_mc_op := 0
    E_in_no := E_in_no
    E_in_sd1_no := noPart.2.1
    E_in_sd2_no := noPart.2.2
    E_loss_no := E_loss_no
    P_in := E_in_no / (cooldown_time / 60)
    P_in_sd1 := noPart.2.1 / (cooldown_time / 60)
    P_in_sd2 := noPart.2.2 / (cooldown_time / 60)
    P_loss := E_loss_no / (cooldown_time / 60) }

/-- Branch `[xx->L]` of `_calc_E_change` (the `else` case, `heatup_1 = 1`):
optional heatup completion followed by trapezoidal load operation with the
load-change adders.  The dangling source fragment `E_in_op =` (line 707) binds
nothing and is omitted; `E_in_op` is the value assigned on line 716. -/
def branchToL (p : ECCParameter) (st : ECCState)
    (P_out_rel_1 P_out_rel_0 heatup_1 operation_time eta_1 eta_mc_1 : ℚ) :
    BranchVals :=
  let noPart : ℚ × ℚ × ℚ × ℚ :=
    if st.heatup < 1 then
      let E_in_no := (heatup_1 - st.heatup) * p.E_start
      (E_in_no, p.split_P_sd1 * E_in_no, p.split_P_sd2 * E_in_no,
       E_in_no * (1 - p.eta_start))
    else
      (0, 0, 0, 0)
  let E_loadchange := p.E_loadchange_ip P_out_rel_1 -
    p.E_loadchange_ip P_out_rel_0
  let E_in_loadchange := max 0 E_loadchange
  let E_loss_op_loadchange := |min 0 E_loadchange|
  let P_in_loadchange := E_in_loadchange / (operation_time / 60)
  let P_in_sd1_loadchange := p.split_P_sd1 * P_in_loadchange
  let P_in_sd2_loadchange := p.split_P_sd2 * P_in_loadchange
  let P_out := p.P_out_rated * P_out_rel_1
  let E_out := (max st.P_out p.P_out_min + P_out) / 2 * (operation_time / 60)
  let P_in_mc_op := P_out / eta_mc_1
  let E_in_mc_op := (max st.P_in_mc p.P_in_mc_min + P_in_mc_op) / 2 *
    (operation_time / 60)
  let P_in_op_wo_loadchange := P_out / eta_1
  let P_in := P_in_op_wo_loadchange + P_in_loadchange
  let E_in_op_wo_loadchange := (max st.P_in p.P_in_min +
    P_in_op_wo_loadchange) / 2 * (operation_time / 60)
  let E_in_op := E_in_op_wo_loadchange + E_in_loadchange
  let E_in_sd_op_wo_loadchange := E_in_op_wo_loadchange - E_in_mc_op
  let E_in_sd_op := E_in_sd_op_wo_loadchange + E_in_loadchange
  let P_in_sd1_op_wo_loadchange :=
    (P_in_op_wo_loadchange - P_in_mc_op) * p.split_P_sd1
  let P_in_sd2_op_wo_loadchange :=
    (P_in_op_wo_loadchange - P_in_mc_op) * p.split_P_sd2
  let E_loss_op_wo_loadchange := E_in_op_wo_loadchange - E_out
  let P_loss_op_wo_loadchange := P_in_op_wo_loadchange - P_out
  let E_loss_op := E_loss_op_wo_loadchange + E_loss_op_loadchange
  { E_in_op := E_in_op
    E_in_mc_op := E_in_mc_op
    E_in_sd1_op := p.split_P_sd1 * E_in_sd_op
    E_in_sd2_op := p.split_P_sd2 * E_in_sd_op
    E_loss_op := E_loss_op
    E_out := E_out
    P_out := P_out
    P_in_mc_op := P_in_mc_op
    E_in_no := noPart.1
    E_in_sd1_no := noPart.2.1
    E_in_sd2_no := noPart.2.2.1
    E_loss_no := noPart.2.2.2
    P_in := P_in
    P_in_sd1 := P_in_sd1_op_wo_loadchange + P_in_sd1_loadchange
    P_in_sd2 := P_in_sd2_op_wo_loadchange + P_in_sd2_loadchange
    P_loss := P_loss_op_wo_loadchange + P_loss_op_wo_loadchange }

/-- The common tail of `_calc_E_change`: summation of `_op` and `_no`
portions, heat factors, and the balance computation (the logging-only
tolerance checks have no effect on the result and are dropped). -/
def flowsOfBranch (p : ECCParameter) (st : ECCState)
    (P_out_rel_1 P_out_rel_0 heatup_1 : ℚ) (b : BranchVals) : EFlows :=
  let E_in := b.E_in_op + b.E_in_no
  let E_in_sd1 := b.E_in_sd1_op + b.E_in_sd1_no
  let E_in_sd2 := b.E_in_sd2_op + b.E_in_sd2_no
  let E_loss := b.E_loss_op + b.E_loss_no
  let E_heat := p.fact_P_heat_P_Loss * E_loss
  let P_heat := p.fact_P_heat_P_Loss * b.P_loss
  let E_change_heatup := (heatup_1 - st.heatup) * p.E_start_heatup
  let E_change_load :=
    p.E_loadchange_ip (max p.P_out_min_rel P_out_rel_1) -
    p.E_loadchange_ip (max p.P_out_min_rel P_out_rel_0)
  let E_balance := b.E_in_mc_op + E_in_sd1 + E_in_sd2 -
    E_change_heatup - E_change_load - b.E_out - E_loss
  { E_in := E_in
    E_in_mc := b.E_in_mc_op
    E_in_sd1 := E_in_sd1
    E_in_sd2 := E_in_sd2
    E_out := b.E_out
    E_loss := E_loss
    E_heat := E_heat
    E_balance := E_balance
    P_in := b.P_in
    P_in_mc := b.P_in_mc_op
    P_in_sd1 := b.P_in_sd1
    P_in_sd2 := b.P_in_sd2
    P_out := b.P_out
    P_loss := b.P_loss
    P_heat := P_heat }

/-- `_calc_E_change`: four-branch energy accounting. -/
def calc_E_change (p : ECCParameter) (ts : ℚ) (st : ECCState)
    (P_out_rel_1 P_out_rel_0 heatup_1 operation_time eta_1 eta_mc_1 : ℚ) :
    EFlows :=
  let b : BranchVals :=
    if heatup_1 < 1 then
      if P_out_rel_0 ≤ P_out_rel_1 then
        branchNLNL p ts st P_out_rel_1 P_out_rel_0 heatup_1
      else
        branchToNL p ts st P_out_rel_1 P_out_rel_0 operation_time
    else
      branchToL p st P_out_rel_1 P_out_rel_0 heatup_1 operation_time
        eta_1 eta_mc_1
  flowsOfBranch p st P_out_rel_1 P_out_rel_0 heatup_1 b

/-- The `contr_val` range limitation of `step_action`: values above
`contr_lim_max` are corrected to `contr_lim_max`, values below
`contr_lim_min` to `contr_lim_min` (a warning is logged, which has no
effect on the computation). -/
def clampContr (contr_val contr_lim_min contr_lim_max : ℚ) : ℚ :=
  if contr_lim_max < contr_val then contr_lim_max
  else if contr_val < contr_lim_min then contr_lim_min
  else contr_val

/-- Body of `step_action` (control type `"target"`): clamping, denormalizing,
ramp calculation, efficiency lookup, energy accounting, and packaging of
`state_1`. -/
def stepState (p : ECCParameter) (ts : ℚ) (st : ECCState)
    (contr_val contr_lim_min contr_lim_max : ℚ) : ECCState :=
  let P0 := P_out_rel_0 p st
  let cv : ℚ := clampContr contr_val contr_lim_min contr_lim_max
  let P_out_targ_rel := (cv - contr_lim_min) / (contr_lim_max - contr_lim_min) *
    (1 - 0) + 0
  let r := calc_P_change p ts st P_out_targ_rel
  let eta_1 := if r.2.1 < 1 then p.eta_start else p.eta_ip r.1
  let eta_mc_1 := if r.2.1 < 1 then 1 else p.eta_mc_ip r.1
  let f := calc_E_change p ts st r.1 P0 r.2.1 r.2.2 eta_1 eta_mc_1
  { E_in := f.E_in
    E_in_mc := f.E_in_mc
    E_in_sd1 := f.E_in_sd1
    E_in_sd2 := f.E_in_sd2
    E_out := f.E_out
    E_loss := f.E_loss
    E_heat := f.E_heat
    E_balance := f.E_balance
    P_in := f.P_in
    P_in_mc := f.P_in_mc
    P_in_sd1 := f.P_in_sd1
    P_in_sd2 := f.P_in_sd2
    P_out := f.P_out
    P_loss := f.P_loss
    P_heat := f.P_heat
    heatup := r.2.1
    eta := eta_1
    eta_mc := eta_mc_1
    opex_Eur := 0 }

/-- The `EnergyConversionComponent` object: parameters, timestep, the deep
copy of the initial state, and the current state. -/
structure EnergyConversionComponent where
  par : ECCParameter
  ts : ℚ
  state_initial : ECCState
  state : ECCState
  deriving DecidableEq

/-- `step_action` with `contr_type="target"`: computes `state_1`; with
`hypothetical_step=True` it returns `state_1` and leaves the component
untouched, otherwise it returns `None` and replaces `self.state`. -/
def EnergyConversionComponent.step_action (comp : EnergyConversionComponent)
    (contr_val : ℚ) (hypothetical_step : Bool)
    (contr_lim_min contr_lim_max : ℚ) :
    Option ECCState × EnergyConversionComponent :=
  let state_1 := stepState comp.par comp.ts comp.state contr_val
    contr_lim_min contr_lim_max
  if hypothetical_step then (some state_1, comp)
  else (none, { comp with state := state_1 })

/-- The `while` loop of `step_action_stationary`.  The loop condition is
`not ((P_out_rel_targ == P_out_rel_actual) and E_cond) and
(ct_iteration <= max_iterations)`; note that `P_out_rel_actual` is computed
once before the loop and never updated inside it (faithful to the source).
Fuel-indexed so the recursion is structural; with fuel
`max_iterations + 2` the fuel never runs out before the condition fails. -/
def statLoopAux (p : ECCParameter) (ts P_out_rel_targ P_out_rel_actual
    contr_val : ℚ) (max_iterations : ℕ) :
    ℕ → ECCState → Bool → ℕ → ECCState × ℕ × Bool
  | 0, st, E_cond, ct => (st, ct, E_cond)
  | fuel + 1, st, E_cond, ct =>
      if (P_out_rel_targ = P_out_rel_actual ∧ E_cond = true) ∨
          max_iterations < ct then
        (st, ct, E_cond)
      else
        let E_in_0 := st.E_in
        let st1 := stepState p ts st contr_val 0 1
        let E_in_1 := st1.E_in
        let E_cond1 := if E_in_0 = E_in_1 then true else E_cond
        statLoopAux p ts P_out_rel_targ P_out_rel_actual contr_val
          max_iterations fuel st1 E_cond1 (ct + 1)

/-- `step_action_stationary`: the loop, one final `step_action`, then
`raise Exception("Target not reached.")` iff `ct_iteration == 100`
(the literal `100`, not `max_iterations`).  Returns the updated component
and whether the exception is raised (the final state is committed before
the raise). -/
def EnergyConversionComponent.step_action_stationary
    (comp : EnergyConversionComponent) (contr_val : ℚ)
    (max_iterations : ℕ) : EnergyConversionComponent × Bool :=
  let P_out_rel_targ := (contr_val - 0) / (1 - 0) * (1 - 0) + 0
  let P_out_rel_actual := comp.state.P_out / comp.par.P_out_rated
  let r := statLoopAux comp.par comp.ts P_out_rel_targ P_out_rel_actual
    contr_val max_iterations (max_iterations + 2) comp.state false 0
  let st_final := stepState comp.par comp.ts r.1 contr_val 0 1
  ({ comp with state := st_final }, r.2.1 == 100)

/-- `ESCParameter`: the fields of the storage dataclass read by
`apply_control` (plus `C_rate`, carried but unused there). -/
structure ESCParameter where
  eta : ℚ
  C_rate : ℚ
  E_cap : ℚ
  autoIncrease : Bool
  deriving DecidableEq

/-- `ESCState`: state of the energy storage component (`SoC` defaults
to `1`, everything else to `0`). -/
structure ESCState where
  P_in : ℚ := 0
  E_in : ℚ := 0
  P_out : ℚ := 0
  E_out : ℚ := 0
  P_loss : ℚ := 0
  E_loss : ℚ := 0
  SoC : ℚ := 1
  E_cap_incr : ℚ := 0
  deriving DecidableEq

/-- The `EnergyStorageComponent` object.  `apply_control` mutates both
`self.state` and (on auto-increase) `self.par.E_cap`, so both are part of
the record. -/
structure EnergyStorageComponent where
  par : ESCParameter
  ts : ℚ
  state_initial : ESCState
  state : ESCState
  deriving DecidableEq

/-- `EnergyStorageComponent.apply_control(E_req)`: discharge for
`E_req <= 0`, charge with efficiency otherwise; on over/underflow either
grow `par.E_cap` by the overflow (`autoIncrease`) or raise
`Exception("Battery overflow")`, modelled as `none`. -/
def EnergyStorageComponent.apply_control (comp : EnergyStorageComponent)
    (E_req : ℚ) : Option EnergyStorageComponent :=
  let E_SoC_0 := comp.state.SoC * comp.par.E_cap
  let flows : ℚ × ℚ × ℚ × ℚ × ℚ × ℚ × ℚ :=
    if E_req ≤ 0 then
      (E_SoC_0 + E_req, -E_req, -E_req / (comp.ts / 60 / 60), 0, 0, 0, 0)
    else
      let E_loss := (1 - comp.par.eta) * E_req
      (E_SoC_0 + comp.par.eta * E_req, 0, 0, E_req,
       E_req / (comp.ts / 60 / 60), E_loss, E_loss / (comp.ts / 60 / 60))
  let E_SoC_1 := flows.1
  let capPart : Option (ℚ × ℚ × ℚ) :=
    if E_SoC_1 < 0 then
      if comp.par.autoIncrease then
        let adder := -1 * E_SoC_1
        some (comp.par.E_cap + adder, comp.state.E_cap_incr + adder, 0)
      else none
    else if comp.par.E_cap < E_SoC_1 then
      if comp.par.autoIncrease then
        let adder := E_SoC_1 - comp.par.E_cap
        some (comp.par.E_cap + adder, comp.state.E_cap_incr + adder, E_SoC_1)
      else none
    else
      some (comp.par.E_cap, 0, E_SoC_1)
  match capPart with
  | none => none
  | some (E_cap_1, E_cap_incr, E_SoC_1f) =>
      some { comp with
        par := { comp.par with E_cap := E_cap_1 }
        state :=
          { E_cap_incr := E_cap_incr
            E_in := flows.2.2.2.1
            E_out := flows.2.1
            E_loss := flows.2.2.2.2.2.1
            SoC := E_SoC_1f / E_cap_1
            P_in := flows.2.2.2.2.1
            P_loss := flows.2.2.2.2.2.2
            P_out := flows.2.2.1 } }

/-! ## Concrete component instances used in witnesses and counterexamples -/

/-- A small concrete `ECCParameter` (flat zero load-change curve,
constant 50 % efficiency, `P_out_min_rel = 0.15`, `t_start = 5`). -/
def pcA : ECCParameter where
  t_start := 5
  E_start := 10
  eta_start := 1/2
  P_out_rated := 100
  P_out_min_rel := 3/20
  p_change_pos := 20
  p_change_neg := 20
  E_loadchange := [(0, 0), (1, 0)]
  eta := [(3/20, 1/2), (1, 1/2)]
  eta_mc := [(3/20, 1/2), (1, 1/2)]
  t_cooldown := 10
  split_P_sd := (1/5, 4/5)
  fact_P_heat_P_Loss := 0

/-- Variant of `pcA` with a fast negative ramp and a load-change curve that
decreases with load (valid per the parameter invariants, which constrain
only the x-samples to be monotone). -/
def pcB : ECCParameter :=
  { pcA with p_change_neg := 70, E_loadchange := [(3/20, 2), (1, 0)] }

/-- A state half way through heatup. -/
def stHalf : ECCState := { heatup := 1/2 }

/-- A cold initial state (all fields at their defaults). -/
def stCold : ECCState := {}

/-- A load-operation state at 50 % load consistent with `pcB`'s curves. -/
def stLoad : ECCState :=
  { heatup := 1, P_out := 50, P_in := 100, P_in_mc := 100 }

/-- A state at 80 % heatup (one startup step short of load operation
for `pcA` at `ts = 1`). -/
def st08 : ECCState := { heatup := 4/5 }

/-- Conversion component built on `pcA` with a cold state, `ts = 1` min. -/
def compA : EnergyConversionComponent :=
  { par := pcA, ts := 1, state_initial := stCold, state := stCold }

/-- Conversion component built on `pcB` in load operation at 50 % load. -/
def compB : EnergyConversionComponent :=
  { par := pcB, ts := 1, state_initial := stLoad, state := stLoad }

/-- Conversion component built on `pcA`, half heated up. -/
def compHalf : EnergyConversionComponent :=
  { par := pcA, ts := 1, state_initial := stCold, state := stHalf }

/-- Storage parameter of the spec scenario: `eta = 0.8`, `E_cap = 1` kWh,
`autoIncrease = True`. -/
def p9 : ESCParameter where
  eta := 4/5
  C_rate := 1
  E_cap := 1
  autoIncrease := true

/-- Storage component for the spec scenario, starting at `SoC = 1`. -/
def comp9 : EnergyStorageComponent :=
  { par := p9, ts := 10, state_initial := {}, state := {} }

/-- One committing `step_action` call at constant full-power target
(`contr_val = 1`, default limits), as in the startup scenario. -/
def stepFull (comp : EnergyConversionComponent) : EnergyConversionComponent :=
  (comp.step_action 1 false 0 1).2

/-- The committed state during the pure-startup steps of the `pcA`
full-power scenario (`heatup = h`, no output). -/
def sRamp (h : ℚ) : ECCState where
  P_in := 120
  E_in := 2
  P_in_mc := 0
  E_in_mc := 0
  P_in_sd1 := 24
  E_in_sd1 := 2/5
  P_in_sd2 := 96
  E_in_sd2 := 8/5
  P_out := 0
  E_out := 0
  P_loss := 60
  E_loss := 1
  P_heat := 0
  E_heat := 0
  heatup := h
  eta := 1/2
  eta_mc := 1
  opex_Eur := 0
  E_balance := 0

/-- The committed state of the fifth step of the `pcA` full-power scenario
(entry into load operation at minimum load). -/
def sA5 : ECCState where
  P_in := 30
  E_in := 160001/80000
  P_in_mc := 30
  E_in_mc := 1/200000
  P_in_sd1 := 0
  E_in_sd1 := 800003/2000000
  P_in_sd2 := 0
  E_in_sd2 := 800003/500000
  P_out := 15
  E_out := 1/400000
  P_loss := 30
  E_loss := 100001/100000
  P_heat := 0
  E_heat := 0
  heatup := 1
  eta := 1/2
  eta_mc := 1/2
  opex_Eur := 0
  E_balance := 0

/-- A fixed point of the committing step of `pcA` at `contr_val = 0.05`
(holding one third of heatup; reached from cold after three steps). -/
def sFix : ECCState where
  P_in := 60
  E_in := 1
  P_in_mc := 0
  E_in_mc := 0
  P_in_sd1 := 12
  E_in_sd1 := 1/5
  P_in_sd2 := 48
  E_in_sd2 := 4/5
  P_out := 0
  E_out := 0
  P_loss := 30
  E_loss := 1/2
  P_heat := 0
  E_heat := 0
  heatup := 1/3
  eta := 1/2
  eta_mc := 1
  opex_Eur := 0
  E_balance := 1/2

/-- Conversion component built on `pcA` in the holding state `sFix`. -/
def compFix : EnergyConversionComponent :=
  { par := pcA, ts := 1, state_initial := sFix, state := sFix }

/-! ## Theorems -/

/-- Auxiliary: the normalized split ratios sum to exactly `1` whenever the
raw split entries do not sum to `0`. -/
theorem split_P_sd_sum (p : ECCParameter)
    (h : p.split_P_sd.1 + p.split_P_sd.2 ≠ 0) :
    p.split_P_sd1 + p.split_P_sd2 = 1 := by
  unfold ECCParameter.split_P_sd1 ECCParameter.split_P_sd2
  rw [div_add_div_same, div_self h]

/-- Auxiliary: `round6` preserves nonnegativity. -/
theorem round6_nonneg {x : ℚ} (h : 0 ≤ x) : 0 ≤ round6 x := by
  unfold round6
  have : (0 : ℤ) ≤ round (x * 1000000) := by
    rw [round_eq]
    exact Int.le_floor.mpr (by push_cast; linarith)
  positivity

/-- Auxiliary: `calc_P_change` returns the same `P_out_rel_1` as the branch
body (the epsilon patch only alters `operation_time`). -/
theorem calc_P_change_fst (p : ECCParameter) (ts : ℚ) (st : ECCState)
    (targ : ℚ) :
    (calc_P_change p ts st targ).1 = (calc_P_change_raw p ts st targ).1 := by
  have hcp : calc_P_change p ts st targ =
      (if (calc_P_change_raw p ts st targ).2.1 = 1 ∧
          (calc_P_change_raw p ts st targ).2.2 = 0
       then ((calc_P_change_raw p ts st targ).1,
             (calc_P_change_raw p ts st targ).2.1, 1 / 100000)
       else calc_P_change_raw p ts st targ) := rfl
  rw [hcp]
  split <;> rfl

/-- Auxiliary: `calc_P_change` returns the same `heatup` as the branch body. -/
theorem calc_P_change_heatup (p : ECCParameter) (ts : ℚ) (st : ECCState)
    (targ : ℚ) :
    (calc_P_change p ts st targ).2.1 =
      (calc_P_change_raw p ts st targ).2.1 := by
  have hcp : calc_P_change p ts st targ =
      (if (calc_P_change_raw p ts st targ).2.1 = 1 ∧
          (calc_P_change_raw p ts st targ).2.2 = 0
       then ((calc_P_change_raw p ts st targ).1,
             (calc_P_change_raw p ts st targ).2.1, 1 / 100000)
       else calc_P_change_raw p ts st targ) := rfl
  rw [hcp]
  split <;> rfl

/-- Auxiliary for C1: in the `[L->L]` configuration (previous heatup `1`,
new heatup `1`, both operating points at or above minimum load) the
energy-balance residual of the branch computation is exactly `0`. -/
theorem LL_balance_core (p : ECCParameter) (st : ECCState)
    (P1 P0 op e1 em1 : ℚ)
    (hsum : p.split_P_sd.1 + p.split_P_sd.2 ≠ 0)
    (hheat : st.heatup = 1)
    (hP1 : p.P_out_min_rel ≤ P1) (hP0 : p.P_out_min_rel ≤ P0) :
    (flowsOfBranch p st P1 P0 1 (branchToL p st P1 P0 1 op e1 em1)).E_balance
      = 0 := by
  have hs2 : p.split_P_sd2 = 1 - p.split_P_sd1 := by
    have := split_P_sd_sum p hsum; linarith
  simp only [flowsOfBranch, branchToL, hheat, lt_irrefl, if_false]
  rw [max_eq_right hP1, max_eq_right hP0, hs2]
  rcases le_total 0 (p.E_loadchange_ip P1 - p.E_loadchange_ip P0) with h | h
  · rw [max_eq_right h, min_eq_left h, abs_zero]
    ring
  · rw [max_eq_left h, min_eq_right h, abs_of_nonpos h]
    ring

/-- C1 (amended): the energy balance `|E_balance| < 1e-5` holds in the
`L->L` branch, where the residual is exactly `0`: for every step from a
fully heated state (`heatup = 1`, operating point at or above minimum load)
that again ends with `heatup = 1`, the committed `E_balance` is `0`.  (In
the `NL->NL` branch with compensation energy the residual can exceed the
tolerance; see the counterexample.) -/
theorem balance_zero_L_L (p : ECCParameter) (ts : ℚ) (st : ECCState)
    (c lmin lmax : ℚ)
    (hsum : p.split_P_sd.1 + p.split_P_sd.2 ≠ 0)
    (hheat : st.heatup = 1)
    (hm : 0 < p.P_out_min_rel)
    (hP0 : p.P_out_min_rel ≤ P_out_rel_0 p st)
    (hH1 : (stepState p ts st c lmin lmax).heatup = 1) :
    (stepState p ts st c lmin lmax).E_balance = 0 := by
  have hr1 : (calc_P_change p ts st
      ((clampContr c lmin lmax - lmin) / (lmax - lmin) * (1 - 0) + 0)).2.1
      = 1 := hH1
  have hraw1 : (calc_P_change_raw p ts st
      ((clampContr c lmin lmax - lmin) / (lmax - lmin) * (1 - 0) + 0)).2.1
      = 1 := by
    rw [← calc_P_change_heatup]; exact hr1
  have hrmin : (calc_P_change_raw p ts st
      ((clampContr c lmin lmax - lmin) / (lmax - lmin) * (1 - 0) + 0)).2.1 =
      min 1 ((calc_P_change_raw p ts st
        ((clampContr c lmin lmax - lmin) / (lmax - lmin) * (1 - 0) + 0)).1 /
        p.P_out_min_rel) := rfl
  have hP1 : p.P_out_min_rel ≤ (calc_P_change p ts st
      ((clampContr c lmin lmax - lmin) / (lmax - lmin) * (1 - 0) + 0)).1 := by
    rw [calc_P_change_fst]
    have h1le : (1:ℚ) ≤ (calc_P_change_raw p ts st
        ((clampContr c lmin lmax - lmin) / (lmax - lmin) * (1 - 0) + 0)).1 /
        p.P_out_min_rel := by
      rw [← min_eq_left_iff, ← hrmin, hraw1]
    have h2 := (le_div_iff₀ hm).mp h1le
    linarith
  have hunf : (stepState p ts st c lmin lmax).E_balance =
      (calc_E_change p ts st
        (calc_P_change p ts st
          ((clampContr c lmin lmax - lmin) / (lmax - lmin) * (1 - 0) + 0)).1
        (P_out_rel_0 p st)
        (calc_P_change p ts st
          ((clampContr c lmin lmax - lmin) / (lmax - lmin) * (1 - 0) + 0)).2.1
        (calc_P_change p ts st
          ((clampContr c lmin lmax - lmin) / (lmax - lmin) * (1 - 0) + 0)).2.2
        (if (calc_P_change p ts st
          ((clampContr c lmin lmax - lmin) / (lmax - lmin) * (1 - 0) + 0)).2.1
            < 1 then p.eta_start
         else p.eta_ip (calc_P_change p ts st
          ((clampContr c lmin lmax - lmin) / (lmax - lmin) * (1 - 0) + 0)).1)
        (if (calc_P_change p ts st
          ((clampContr c lmin lmax - lmin) / (lmax - lmin) * (1 - 0) + 0)).2.1
            < 1 then 1
         else p.eta_mc_ip (calc_P_change p ts st
          ((clampContr c lmin lmax - lmin) / (lmax - lmin) * (1 - 0) + 0)).1)
        ).E_balance := rfl
  rw [hunf, hr1]
  rw [show calc_E_change p ts st
      (calc_P_change p ts st
        ((clampContr c lmin lmax - lmin) / (lmax - lmin) * (1 - 0) + 0)).1
      (P_out_rel_0 p st) 1
      (calc_P_change p ts st
        ((clampContr c lmin lmax - lmin) / (lmax - lmin) * (1 - 0) + 0)).2.2
      (if (1:ℚ) < 1 then p.eta_start
       else p.eta_ip (calc_P_change p ts st
        ((clampContr c lmin lmax - lmin) / (lmax - lmin) * (1 - 0) + 0)).1)
      (if (1:ℚ) < 1 then 1
       else p.eta_mc_ip (calc_P_change p ts st
        ((clampContr c lmin lmax - lmin) / (lmax - lmin) * (1 - 0) + 0)).1) =
      flowsOfBranch p st
        (calc_P_change p ts st
          ((clampContr c lmin lmax - lmin) / (lmax - lmin) * (1 - 0) + 0)).1
        (P_out_rel_0 p st) 1
        (branchToL p st
          (calc_P_change p ts st
            ((clampContr c lmin lmax - lmin) / (lmax - lmin) * (1 - 0) + 0)).1
          (P_out_rel_0 p st) 1
          (calc_P_change p ts st
            ((clampContr c lmin lmax - lmin) / (lmax - lmin) * (1 - 0) + 0)).2.2
          (if (1:ℚ) < 1 then p.eta_start
           else p.eta_ip (calc_P_change p ts st
            ((clampContr c lmin lmax - lmin) / (lmax - lmin) * (1 - 0) + 0)).1)
          (if (1:ℚ) < 1 then 1
           else p.eta_mc_ip (calc_P_change p ts st
            ((clampContr c lmin lmax - lmin) / (lmax - lmin) * (1 - 0) + 0)).1))
      from by rw [calc_E_change, if_neg (lt_irrefl (1:ℚ))]]
  exact LL_balance_core p st _ _ _ _ _ hsum hheat hP1 hP0

/-- Witness for C1 (amended) at a concrete `L->L` step of `pcA` at 50 %
load with target 50 %. -/
theorem balance_zero_L_L_witness :
    pcA.split_P_sd.1 + pcA.split_P_sd.2 ≠ 0 ∧
    stLoad.heatup = 1 ∧
    0 < pcA.P_out_min_rel ∧
    pcA.P_out_min_rel ≤ P_out_rel_0 pcA stLoad ∧
    (stepState pcA 1 stLoad (1/2) 0 1).heatup = 1 ∧
    (stepState pcA 1 stLoad (1/2) 0 1).E_balance = 0 := by
  have hsum : pcA.split_P_sd.1 + pcA.split_P_sd.2 ≠ 0 := by norm_num [pcA]
  have hheat : stLoad.heatup = 1 := rfl
  have hm : 0 < pcA.P_out_min_rel := by norm_num [pcA]
  have hP0 : pcA.P_out_min_rel ≤ P_out_rel_0 pcA stLoad := by
    norm_num [P_out_rel_0, round6, round_eq, pcA, stLoad]
  have hH1 : (stepState pcA 1 stLoad (1/2) 0 1).heatup = 1 := by
    norm_num [stepState, clampContr, P_out_rel_0, round6, calc_P_change,
      calc_P_change_raw, calc_E_change, branchNLNL, branchToNL, branchToL,
      flowsOfBranch, ECCParameter.eta_ip, ECCParameter.eta_mc_ip,
      ECCParameter.E_loadchange_ip, ECCParameter.E_start_heatup,
      ECCParameter.E_start_loss, ECCParameter.split_P_sd1,
      ECCParameter.split_P_sd2, ECCParameter.P_out_min, ECCParameter.P_in_min,
      ECCParameter.P_in_mc_min, interp1d, interpSeg, round_eq, pcA, stLoad]
  exact ⟨hsum, hheat, hm, hP0, hH1,
    balance_zero_L_L pcA 1 stLoad (1/2) 0 1 hsum hheat hm hP0 hH1⟩

/-- C4: `step_action` with `hypothetical_step=True` returns exactly the
state that the committing call stores in `self.state`, and leaves the
component (state, parameters, interpolators) unchanged; the committing call
returns nothing and replaces `self.state` wholesale with the new snapshot. -/
theorem step_action_hypothetical_frame (comp : EnergyConversionComponent)
    (c lmin lmax : ℚ) :
    (comp.step_action c true lmin lmax).1 =
      some ((comp.step_action c false lmin lmax).2.state) ∧
    (comp.step_action c true lmin lmax).2 = comp ∧
    (comp.step_action c false lmin lmax).1 = none ∧
    (comp.step_action c false lmin lmax).2 =
      { comp with state := stepState comp.par comp.ts comp.state c lmin lmax } :=
  ⟨rfl, rfl, rfl, rfl⟩

/-- C3: an energy-balance violation never aborts the step: even when the
computed `E_balance` residual exceeds the tolerance `1e-5`, the committing
call stores exactly the computed state and the hypothetical call returns it
(the violation is observable only via logging, which the embedding drops). -/
theorem step_action_commits_despite_imbalance
    (comp : EnergyConversionComponent) (c lmin lmax : ℚ)
    (_himb : 1 / 100000 <
      |(stepState comp.par comp.ts comp.state c lmin lmax).E_balance|) :
    (comp.step_action c false lmin lmax).2.state =
      stepState comp.par comp.ts comp.state c lmin lmax ∧
    (comp.step_action c true lmin lmax).1 =
      some (stepState comp.par comp.ts comp.state c lmin lmax) :=
  ⟨rfl, rfl⟩

/-- Witness for C3 at a concrete input whose balance residual is `1/2`. -/
theorem step_action_commits_despite_imbalance_witness :
    1 / 100000 <
      |(stepState compHalf.par compHalf.ts compHalf.state (3/40) 0 1).E_balance| ∧
    (compHalf.step_action (3/40) false 0 1).2.state =
      stepState compHalf.par compHalf.ts compHalf.state (3/40) 0 1 := by
  have hb : (stepState compHalf.par compHalf.ts compHalf.state
      (3/40) 0 1).E_balance = 1/2 := by
    norm_num [stepState, clampContr, P_out_rel_0, round6, calc_P_change,
      calc_P_change_raw, calc_E_change, branchNLNL, branchToNL, branchToL,
      flowsOfBranch, ECCParameter.eta_ip, ECCParameter.eta_mc_ip,
      ECCParameter.E_loadchange_ip, ECCParameter.E_start_heatup,
      ECCParameter.E_start_loss, ECCParameter.split_P_sd1,
      ECCParameter.split_P_sd2, ECCParameter.P_out_min, ECCParameter.P_in_min,
      ECCParameter.P_in_mc_min, interp1d, interpSeg, round_eq, compHalf,
      pcA, stHalf]
  have hyp : 1 / 100000 <
      |(stepState compHalf.par compHalf.ts compHalf.state (3/40) 0 1).E_balance| := by
    rw [hb, abs_of_pos (by norm_num : (0:ℚ) < 1/2)]
    norm_num
  exact ⟨hyp,
    (step_action_commits_despite_imbalance compHalf (3/40) 0 1 hyp).1⟩

/-- C5: out-of-range control values are clamped to the nearest bound: for
`contr_lim_min ≤ contr_lim_max`, calling `step_action` with any `contr_val`
gives exactly the same result as calling it with the clamped value. -/
theorem step_action_clamps (comp : EnergyConversionComponent)
    (c lmin lmax : ℚ) (hyp : Bool) (hle : lmin ≤ lmax) :
    comp.step_action c hyp lmin lmax =
      comp.step_action (max lmin (min lmax c)) hyp lmin lmax := by
  have hcl : clampContr (max lmin (min lmax c)) lmin lmax =
      clampContr c lmin lmax := by
    unfold clampContr
    rcases lt_or_le lmax c with h1 | h1
    · rw [min_eq_left h1.le, max_eq_right hle]
      simp [h1, not_lt.mpr hle, not_lt.mpr (le_refl lmax)]
    · rcases lt_or_le c lmin with h2 | h2
      · rw [min_eq_right h1, max_eq_left h2.le]
        simp [h2, not_lt.mpr hle, not_lt.mpr h1]
      · rw [min_eq_right h1, max_eq_right h2]
  unfold EnergyConversionComponent.step_action stepState
  rw [hcl]

/-- Witness for C5: an out-of-range control value `5` behaves like the
clamped value. -/
theorem step_action_clamps_witness :
    (0 : ℚ) ≤ 1 ∧
    compA.step_action 5 false 0 1 =
      compA.step_action (max 0 (min 1 5)) false 0 1 :=
  ⟨by norm_num, step_action_clamps compA 5 0 1 false (by norm_num)⟩

/-- C7: `_calc_P_change` never returns the pair `heatup = 1`,
`operation_time = 0`: when the returned heatup is exactly `1` the returned
operation time is nonzero, and whenever the branch body produced
`operation_time = 0` together with `heatup = 1`, the returned operation time
is the epsilon `1e-5`. -/
theorem calc_P_change_eps_patch (p : ECCParameter) (ts : ℚ) (st : ECCState)
    (targ : ℚ) :
    ((calc_P_change p ts st targ).2.1 = 1 →
      (calc_P_change p ts st targ).2.2 ≠ 0) ∧
    ((calc_P_change_raw p ts st targ).2.1 = 1 →
      (calc_P_change_raw p ts st targ).2.2 = 0 →
      (calc_P_change p ts st targ).2.2 = 1 / 100000) := by
  have hcp : calc_P_change p ts st targ =
      (if (calc_P_change_raw p ts st targ).2.1 = 1 ∧
          (calc_P_change_raw p ts st targ).2.2 = 0
       then ((calc_P_change_raw p ts st targ).1,
             (calc_P_change_raw p ts st targ).2.1, 1 / 100000)
       else calc_P_change_raw p ts st targ) := rfl
  by_cases h : (calc_P_change_raw p ts st targ).2.1 = 1 ∧
      (calc_P_change_raw p ts st targ).2.2 = 0
  · rw [hcp, if_pos h]
    exact ⟨fun _ => by norm_num, fun _ _ => rfl⟩
  · rw [hcp, if_neg h]
    exact ⟨fun h1 h0 => h ⟨h1, h0⟩, fun h1 h0 => absurd ⟨h1, h0⟩ h⟩

/-- Witness for C7: one step before full heatup with a full-power target,
the branch body lands exactly on `heatup = 1` and the returned operation
time is nonzero (it is the epsilon). -/
theorem calc_P_change_eps_patch_witness :
    (calc_P_change pcA 1 st08 1).2.1 = 1 ∧
    (calc_P_change pcA 1 st08 1).2.2 ≠ 0 := by
  have h1 : (calc_P_change pcA 1 st08 1).2.1 = 1 := by
    norm_num [calc_P_change, calc_P_change_raw, P_out_rel_0, round6,
      round_eq, pcA, st08]
  exact ⟨h1, (calc_P_change_eps_patch pcA 1 st08 1).1 h1⟩

/-- C8: startup scenario (`P_out_min_rel = 0.15`, `t_start = 5`, `ts = 1`,
constant full-power target from a cold state): after exactly 5 committing
`step_action` calls the state has `heatup = 1` and `P_out = P_out_min`,
and the 4 intermediate committed states all have `P_out = 0`. -/
theorem startup_scenario_five_steps :
    (stepFull^[5] compA).state.heatup = 1 ∧
    (stepFull^[5] compA).state.P_out = pcA.P_out_min ∧
    (stepFull^[1] compA).state.P_out = 0 ∧
    (stepFull^[2] compA).state.P_out = 0 ∧
    (stepFull^[3] compA).state.P_out = 0 ∧
    (stepFull^[4] compA).state.P_out = 0 := by
  have h1 : stepState pcA 1 stCold 1 0 1 = sRamp (1/5) := by
    norm_num [stepState, clampContr, P_out_rel_0, round6, calc_P_change,
      calc_P_change_raw, calc_E_change, branchNLNL, branchToNL, branchToL,
      flowsOfBranch, ECCParameter.eta_ip, ECCParameter.eta_mc_ip,
      ECCParameter.E_loadchange_ip, ECCParameter.E_start_heatup,
      ECCParameter.E_start_loss, ECCParameter.split_P_sd1,
      ECCParameter.split_P_sd2, ECCParameter.P_out_min, ECCParameter.P_in_min,
      ECCParameter.P_in_mc_min, interp1d, interpSeg, round_eq, pcA, stCold,
      sRamp, ECCState.mk.injEq]
  have h2 : stepState pcA 1 (sRamp (1/5)) 1 0 1 = sRamp (2/5) := by
    norm_num [stepState, clampContr, P_out_rel_0, round6, calc_P_change,
      calc_P_change_raw, calc_E_change, branchNLNL, branchToNL, branchToL,
      flowsOfBranch, ECCParameter.eta_ip, ECCParameter.eta_mc_ip,
      ECCParameter.E_loadchange_ip, ECCParameter.E_start_heatup,
      ECCParameter.E_start_loss, ECCParameter.split_P_sd1,
      ECCParameter.split_P_sd2, ECCParameter.P_out_min, ECCParameter.P_in_min,
      ECCParameter.P_in_mc_min, interp1d, interpSeg, round_eq, pcA,
      sRamp, ECCState.mk.injEq]
  have h3 : stepState pcA 1 (sRamp (2/5)) 1 0 1 = sRamp (3/5) := by
    norm_num [stepState, clampContr, P_out_rel_0, round6, calc_P_change,
      calc_P_change_raw, calc_E_change, branchNLNL, branchToNL, branchToL,
      flowsOfBranch, ECCParameter.eta_ip, ECCParameter.eta_mc_ip,
      ECCParameter.E_loadchange_ip, ECCParameter.E_start_heatup,
      ECCParameter.E_start_loss, ECCParameter.split_P_sd1,
      ECCParameter.split_P_sd2, ECCParameter.P_out_min, ECCParameter.P_in_min,
      ECCParameter.P_in_mc_min, interp1d, interpSeg, round_eq, pcA,
      sRamp, ECCState.mk.injEq]
  have h4 : stepState pcA 1 (sRamp (3/5)) 1 0 1 = sRamp (4/5) := by
    norm_num [stepState, clampContr, P_out_rel_0, round6, calc_P_change,
      calc_P_change_raw, calc_E_change, branchNLNL, branchToNL, branchToL,
      flowsOfBranch, ECCParameter.eta_ip, ECCParameter.eta_mc_ip,
      ECCParameter.E_loadchange_ip, ECCParameter.E_start_heatup,
      ECCParameter.E_start_loss, ECCParameter.split_P_sd1,
      ECCParameter.split_P_sd2, ECCParameter.P_out_min, ECCParameter.P_in_min,
      ECCParameter.P_in_mc_min, interp1d, interpSeg, round_eq, pcA,
      sRamp, ECCState.mk.injEq]
  have h5 : stepState pcA 1 (sRamp (4/5)) 1 0 1 = sA5 := by
    norm_num [stepState, clampContr, P_out_rel_0, round6, calc_P_change,
      calc_P_change_raw, calc_E_change, branchNLNL, branchToNL, branchToL,
      flowsOfBranch, ECCParameter.eta_ip, ECCParameter.eta_mc_ip,
      ECCParameter.E_loadchange_ip, ECCParameter.E_start_heatup,
      ECCParameter.E_start_loss, ECCParameter.split_P_sd1,
      ECCParameter.split_P_sd2, ECCParameter.P_out_min, ECCParameter.P_in_min,
      ECCParameter.P_in_mc_min, interp1d, interpSeg, round_eq, pcA,
      sRamp, sA5, ECCState.mk.injEq]
  have c1 : stepFull ⟨pcA, 1, stCold, stCold⟩ = ⟨pcA, 1, stCold, sRamp (1/5)⟩ := by
    show (⟨pcA, 1, stCold, stepState pcA 1 stCold 1 0 1⟩ :
      EnergyConversionComponent) = _
    rw [h1]
  have c2 : stepFull ⟨pcA, 1, stCold, sRamp (1/5)⟩ =
      ⟨pcA, 1, stCold, sRamp (2/5)⟩ := by
    show (⟨pcA, 1, stCold, stepState pcA 1 (sRamp (1/5)) 1 0 1⟩ :
      EnergyConversionComponent) = _
    rw [h2]
  have c3 : stepFull ⟨pcA, 1, stCold, sRamp (2/5)⟩ =
      ⟨pcA, 1, stCold, sRamp (3/5)⟩ := by
    show (⟨pcA, 1, stCold, stepState pcA 1 (sRamp (2/5)) 1 0 1⟩ :
      EnergyConversionComponent) = _
    rw [h3]
  have c4 : stepFull ⟨pcA, 1, stCold, sRamp (3/5)⟩ =
      ⟨pcA, 1, stCold, sRamp (4/5)⟩ := by
    show (⟨pcA, 1, stCold, stepState pcA 1 (sRamp (3/5)) 1 0 1⟩ :
      EnergyConversionComponent) = _
    rw [h4]
  have c5 : stepFull ⟨pcA, 1, stCold, sRamp (4/5)⟩ =
      ⟨pcA, 1, stCold, sA5⟩ := by
    show (⟨pcA, 1, stCold, stepState pcA 1 (sRamp (4/5)) 1 0 1⟩ :
      EnergyConversionComponent) = _
    rw [h5]
  have i1 : stepFull^[1] compA = ⟨pcA, 1, stCold, sRamp (1/5)⟩ := by
    rw [Function.iterate_one]; exact c1
  have i2 : stepFull^[2] compA = ⟨pcA, 1, stCold, sRamp (2/5)⟩ := by
    rw [show (2:ℕ) = 1 + 1 from rfl, Function.iterate_add_apply, i1,
      Function.iterate_one]
    exact c2
  have i3 : stepFull^[3] compA = ⟨pcA, 1, stCold, sRamp (3/5)⟩ := by
    rw [show (3:ℕ) = 1 + 2 from rfl, Function.iterate_add_apply, i2,
      Function.iterate_one]
    exact c3
  have i4 : stepFull^[4] compA = ⟨pcA, 1, stCold, sRamp (4/5)⟩ := by
    rw [show (4:ℕ) = 1 + 3 from rfl, Function.iterate_add_apply, i3,
      Function.iterate_one]
    exact c4
  have i5 : stepFull^[5] compA = ⟨pcA, 1, stCold, sA5⟩ := by
    rw [show (5:ℕ) = 1 + 4 from rfl, Function.iterate_add_apply, i4,
      Function.iterate_one]
    exact c5
  refine ⟨?_, ?_, ?_, ?_, ?_, ?_⟩
  · rw [i5]; norm_num [sA5]
  · rw [i5]; norm_num [sA5, pcA, ECCParameter.P_out_min]
  · rw [i1]; norm_num [sRamp]
  · rw [i2]; norm_num [sRamp]
  · rw [i3]; norm_num [sRamp]
  · rw [i4]; norm_num [sRamp]

/-- Auxiliary for C6: if the current state is a fixed point of the
committing step and the (stale) `P_out_rel_actual` differs from the target,
the `step_action_stationary` loop runs until `ct_iteration` exceeds
`max_iterations` and exits with `ct_iteration = max_iterations + 1`. -/
theorem statLoopAux_stuck (p : ECCParameter) (ts targ actual c : ℚ)
    (maxIter : ℕ) (st : ECCState)
    (hstep : stepState p ts st c 0 1 = st) (hne : targ ≠ actual) :
    ∀ (fuel ct : ℕ) (econd : Bool), maxIter < ct + fuel →
      statLoopAux p ts targ actual c maxIter fuel st econd ct =
        (st, max ct (maxIter + 1), if ct ≤ maxIter then true else econd) := by
  intro fuel
  induction fuel with
  | zero =>
      intro ct econd h
      have hlt : maxIter < ct := by omega
      have hmax : max ct (maxIter + 1) = ct := Nat.max_eq_left (by omega)
      have hnle : ¬ ct ≤ maxIter := by omega
      simp [statLoopAux, hmax, hnle]
  | succ f ih =>
      intro ct econd h
      by_cases hct : maxIter < ct
      · have hmax : max ct (maxIter + 1) = ct := Nat.max_eq_left (by omega)
        have hnle : ¬ ct ≤ maxIter := by omega
        simp [statLoopAux, hmax, hnle, hct]
      · have hle : ct ≤ maxIter := by omega
        have hcond : ¬((targ = actual ∧ econd = true) ∨ maxIter < ct) :=
          fun h' => h'.elim (fun hh => hne hh.1) hct
        simp only [statLoopAux]
        rw [if_neg hcond]
        simp only [hstep, eq_self_iff_true, if_true]
        rw [ih (ct + 1) true (by omega)]
        have h1 : max (ct + 1) (maxIter + 1) = maxIter + 1 :=
          Nat.max_eq_right (by omega)
        have h2 : max ct (maxIter + 1) = maxIter + 1 :=
          Nat.max_eq_right (by omega)
        simp [h1, h2, hle]

/-- C6 (code evaluated at the failing input): with a target below minimum
load (`contr_val = 0.05 < P_out_min_rel`, holding state `sFix`) the
stationary solver can never reach `P_out/P_out_rated == contr_val`, yet
`step_action_stationary` terminates without raising: `ct_iteration` ends at
`max_iterations + 1 = 101`, which the hardcoded `ct_iteration == 100` check
does not catch. -/
theorem step_action_stationary_no_raise :
    (compFix.step_action_stationary (1/20) 100).2 = false ∧
    (compFix.step_action_stationary (1/20) 100).1.state.P_out /
      compFix.par.P_out_rated ≠ 1/20 := by
  have hstep : stepState pcA 1 sFix (1/20) 0 1 = sFix := by
    norm_num [stepState, clampContr, P_out_rel_0, round6, calc_P_change,
      calc_P_change_raw, calc_E_change, branchNLNL, branchToNL, branchToL,
      flowsOfBranch, ECCParameter.eta_ip, ECCParameter.eta_mc_ip,
      ECCParameter.E_loadchange_ip, ECCParameter.E_start_heatup,
      ECCParameter.E_start_loss, ECCParameter.split_P_sd1,
      ECCParameter.split_P_sd2, ECCParameter.P_out_min, ECCParameter.P_in_min,
      ECCParameter.P_in_mc_min, interp1d, interpSeg, round_eq, pcA,
      sFix, ECCState.mk.injEq]
  have hne : (((1:ℚ)/20 - 0) / (1 - 0) * (1 - 0) + 0) ≠
      sFix.P_out / pcA.P_out_rated := by
    norm_num [sFix, pcA]
  have hloop := statLoopAux_stuck pcA 1
    (((1:ℚ)/20 - 0) / (1 - 0) * (1 - 0) + 0) (sFix.P_out / pcA.P_out_rated)
    (1/20) 100 sFix hstep hne (100 + 2) 0 false (by omega)
  unfold EnergyConversionComponent.step_action_stationary
  simp only [compFix]
  rw [hloop, hstep]
  constructor
  · decide
  · norm_num [sFix, pcA]

/-- Counterexample to C1: holding a half-heated state (`heatup = 0.5`,
target equal to the current artificial relative power) yields
`E_balance = eta_start * E_compens = 1/2`, far above the tolerance `1e-5`. -/
theorem balance_violation_holding :
    1 / 100000 <
      |((compHalf.step_action (3/40) false 0 1).2.state).E_balance| := by
  have hb : ((compHalf.step_action (3/40) false 0 1).2.state).E_balance
      = 1/2 := by
    norm_num [EnergyConversionComponent.step_action, stepState, clampContr,
      P_out_rel_0, round6, calc_P_change, calc_P_change_raw, calc_E_change,
      branchNLNL, branchToNL, branchToL, flowsOfBranch,
      ECCParameter.eta_ip, ECCParameter.eta_mc_ip,
      ECCParameter.E_loadchange_ip, ECCParameter.E_start_heatup,
      ECCParameter.E_start_loss, ECCParameter.split_P_sd1,
      ECCParameter.split_P_sd2, ECCParameter.P_out_min, ECCParameter.P_in_min,
      ECCParameter.P_in_mc_min, interp1d, interpSeg, round_eq, compHalf,
      pcA, stHalf]
  rw [hb, abs_of_pos (by norm_num : (0:ℚ) < 1/2)]
  norm_num

/-- Counterexample to C2: in the `[L->NL]` branch with a load-change curve
that decreases with load, the committed `E_in` misses the doubly added
`E_in_loadchange`, so `E_in ≠ E_in_mc + E_in_sd1 + E_in_sd2` by `14/17`. -/
theorem split_violation_L_NL :
    1 / 100000 <
      |((compB.step_action 0 false 0 1).2.state).E_in -
        (((compB.step_action 0 false 0 1).2.state).E_in_mc +
         ((compB.step_action 0 false 0 1).2.state).E_in_sd1 +
         ((compB.step_action 0 false 0 1).2.state).E_in_sd2)| := by
  have hd : ((compB.step_action 0 false 0 1).2.state).E_in -
      (((compB.step_action 0 false 0 1).2.state).E_in_mc +
       ((compB.step_action 0 false 0 1).2.state).E_in_sd1 +
       ((compB.step_action 0 false 0 1).2.state).E_in_sd2) = -(14/17) := by
    norm_num [EnergyConversionComponent.step_action, stepState, clampContr,
      P_out_rel_0, round6, calc_P_change, calc_P_change_raw, calc_E_change,
      branchNLNL, branchToNL, branchToL, flowsOfBranch,
      ECCParameter.eta_ip, ECCParameter.eta_mc_ip,
      ECCParameter.E_loadchange_ip, ECCParameter.E_start_heatup,
      ECCParameter.E_start_loss, ECCParameter.split_P_sd1,
      ECCParameter.split_P_sd2, ECCParameter.P_out_min, ECCParameter.P_in_min,
      ECCParameter.P_in_mc_min, interp1d, interpSeg, round_eq, compB,
      pcB, pcA, stLoad]
  rw [hd, abs_neg, abs_of_pos (by norm_num : (0:ℚ) < 14/17)]
  norm_num

/-- Auxiliary for C2: both split identities hold exactly in the `[NL->NL]`
branch. -/
theorem branchNLNL_split (p : ECCParameter) (ts : ℚ) (st : ECCState)
    (P1 P0 h1 : ℚ) (hs2 : p.split_P_sd2 = 1 - p.split_P_sd1) :
    (flowsOfBranch p st P1 P0 h1 (branchNLNL p ts st P1 P0 h1)).P_in =
      (flowsOfBranch p st P1 P0 h1 (branchNLNL p ts st P1 P0 h1)).P_in_mc +
      (flowsOfBranch p st P1 P0 h1 (branchNLNL p ts st P1 P0 h1)).P_in_sd1 +
      (flowsOfBranch p st P1 P0 h1 (branchNLNL p ts st P1 P0 h1)).P_in_sd2 ∧
    (flowsOfBranch p st P1 P0 h1 (branchNLNL p ts st P1 P0 h1)).E_in =
      (flowsOfBranch p st P1 P0 h1 (branchNLNL p ts st P1 P0 h1)).E_in_mc +
      (flowsOfBranch p st P1 P0 h1 (branchNLNL p ts st P1 P0 h1)).E_in_sd1 +
      (flowsOfBranch p st P1 P0 h1 (branchNLNL p ts st P1 P0 h1)).E_in_sd2 := by
  unfold flowsOfBranch branchNLNL
  dsimp only
  constructor <;> (rw [hs2]; ring)

/-- Auxiliary for C2: both split identities hold exactly in the `[xx->L]`
branch. -/
theorem branchToL_split (p : ECCParameter) (st : ECCState)
    (P1 P0 h1 op e1 em1 : ℚ) (hs2 : p.split_P_sd2 = 1 - p.split_P_sd1) :
    (flowsOfBranch p st P1 P0 h1 (branchToL p st P1 P0 h1 op e1 em1)).P_in =
      (flowsOfBranch p st P1 P0 h1 (branchToL p st P1 P0 h1 op e1 em1)).P_in_mc +
      (flowsOfBranch p st P1 P0 h1 (branchToL p st P1 P0 h1 op e1 em1)).P_in_sd1 +
      (flowsOfBranch p st P1 P0 h1 (branchToL p st P1 P0 h1 op e1 em1)).P_in_sd2 ∧
    (flowsOfBranch p st P1 P0 h1 (branchToL p st P1 P0 h1 op e1 em1)).E_in =
      (flowsOfBranch p st P1 P0 h1 (branchToL p st P1 P0 h1 op e1 em1)).E_in_mc +
      (flowsOfBranch p st P1 P0 h1 (branchToL p st P1 P0 h1 op e1 em1)).E_in_sd1 +
      (flowsOfBranch p st P1 P0 h1 (branchToL p st P1 P0 h1 op e1 em1)).E_in_sd2 := by
  unfold flowsOfBranch branchToL
  dsimp only
  split_ifs <;> dsimp only <;> constructor <;> (rw [hs2]; ring)

/-- Auxiliary for C2: in the `[xx->NL]` branch, the `P_in` split identity
holds exactly, and the `E_in` split identity holds whenever the step did not
start from full heatup (the operation part of the branch is then zero). -/
theorem branchToNL_split (p : ECCParameter) (ts : ℚ) (st : ECCState)
    (P1 P0 h1 op : ℚ) (hs2 : p.split_P_sd2 = 1 - p.split_P_sd1) :
    (flowsOfBranch p st P1 P0 h1 (branchToNL p ts st P1 P0 op)).P_in =
      (flowsOfBranch p st P1 P0 h1 (branchToNL p ts st P1 P0 op)).P_in_mc +
      (flowsOfBranch p st P1 P0 h1 (branchToNL p ts st P1 P0 op)).P_in_sd1 +
      (flowsOfBranch p st P1 P0 h1 (branchToNL p ts st P1 P0 op)).P_in_sd2 ∧
    (st.heatup ≠ 1 →
      (flowsOfBranch p st P1 P0 h1 (branchToNL p ts st P1 P0 op)).E_in =
        (flowsOfBranch p st P1 P0 h1 (branchToNL p ts st P1 P0 op)).E_in_mc +
        (flowsOfBranch p st P1 P0 h1 (branchToNL p ts st P1 P0 op)).E_in_sd1 +
        (flowsOfBranch p st P1 P0 h1 (branchToNL p ts st P1 P0 op)).E_in_sd2) := by
  unfold flowsOfBranch branchToNL
  dsimp only
  constructor
  · split_ifs <;> dsimp only <;> (try rw [hs2]) <;> ring
  · intro hst
    rw [if_neg hst]
    split_ifs <;> dsimp only <;> (try rw [hs2]) <;> ring

/-- C2 (amended): the split totals are exact where the branches are
consistent: `P_in = P_in_mc + P_in_sd1 + P_in_sd2` holds exactly in every
branch, and `E_in = E_in_mc + E_in_sd1 + E_in_sd2` holds exactly in the
`NL->NL`, `NL->L` and `L->L` branches — but not in general in the `L->NL`
branch (previous heatup `1`, `P_out_rel_1 < P_out_rel_0`, new heatup `< 1`),
where `E_in_loadchange` is double-counted in the secondary split; see the
counterexample. -/
theorem split_exact_outside_L_NL (p : ECCParameter) (ts : ℚ) (st : ECCState)
    (P1 P0 h1 op e1 em1 : ℚ)
    (hsum : p.split_P_sd.1 + p.split_P_sd.2 ≠ 0) :
    (calc_E_change p ts st P1 P0 h1 op e1 em1).P_in =
      (calc_E_change p ts st P1 P0 h1 op e1 em1).P_in_mc +
      (calc_E_change p ts st P1 P0 h1 op e1 em1).P_in_sd1 +
      (calc_E_change p ts st P1 P0 h1 op e1 em1).P_in_sd2 ∧
    (¬(h1 < 1 ∧ P1 < P0 ∧ st.heatup = 1) →
      (calc_E_change p ts st P1 P0 h1 op e1 em1).E_in =
        (calc_E_change p ts st P1 P0 h1 op e1 em1).E_in_mc +
        (calc_E_change p ts st P1 P0 h1 op e1 em1).E_in_sd1 +
        (calc_E_change p ts st P1 P0 h1 op e1 em1).E_in_sd2) := by
  have hs2 : p.split_P_sd2 = 1 - p.split_P_sd1 := by
    have := split_P_sd_sum p hsum; linarith
  unfold calc_E_change
  by_cases hh : h1 < 1
  · by_cases hp : P0 ≤ P1
    · rw [if_pos hh, if_pos hp]
      exact ⟨(branchNLNL_split p ts st P1 P0 h1 hs2).1,
        fun _ => (branchNLNL_split p ts st P1 P0 h1 hs2).2⟩
    · rw [if_pos hh, if_neg hp]
      refine ⟨(branchToNL_split p ts st P1 P0 h1 op hs2).1, fun hne => ?_⟩
      exact (branchToNL_split p ts st P1 P0 h1 op hs2).2
        (fun hst1 => hne ⟨hh, lt_of_not_ge hp, hst1⟩)
  · rw [if_neg hh]
    exact ⟨(branchToL_split p st P1 P0 h1 op e1 em1 hs2).1,
      fun _ => (branchToL_split p st P1 P0 h1 op e1 em1 hs2).2⟩

/-- Witness for C2 (amended) at a concrete `L->L` energy computation of
`pcA` at 50 % load. -/
theorem split_exact_outside_L_NL_witness :
    pcA.split_P_sd.1 + pcA.split_P_sd.2 ≠ 0 ∧
    (calc_E_change pcA 1 stLoad (1/2) (1/2) 1 1 (1/2) (1/2)).P_in =
      (calc_E_change pcA 1 stLoad (1/2) (1/2) 1 1 (1/2) (1/2)).P_in_mc +
      (calc_E_change pcA 1 stLoad (1/2) (1/2) 1 1 (1/2) (1/2)).P_in_sd1 +
      (calc_E_change pcA 1 stLoad (1/2) (1/2) 1 1 (1/2) (1/2)).P_in_sd2 ∧
    (calc_E_change pcA 1 stLoad (1/2) (1/2) 1 1 (1/2) (1/2)).E_in =
      (calc_E_change pcA 1 stLoad (1/2) (1/2) 1 1 (1/2) (1/2)).E_in_mc +
      (calc_E_change pcA 1 stLoad (1/2) (1/2) 1 1 (1/2) (1/2)).E_in_sd1 +
      (calc_E_change pcA 1 stLoad (1/2) (1/2) 1 1 (1/2) (1/2)).E_in_sd2 := by
  have hsum : pcA.split_P_sd.1 + pcA.split_P_sd.2 ≠ 0 := by norm_num [pcA]
  have h := split_exact_outside_L_NL pcA 1 stLoad (1/2) (1/2) 1 1 (1/2) (1/2)
    hsum
  exact ⟨hsum, h.1, h.2 (by simp [lt_irrefl])⟩

/-- C10: for every state with `heatup ∈ [0,1]` and `P_out ∈ [0, P_out_rated]`
and every target in `[0,1]` (with positive time constants, positive minimum
load, nonnegative positive-ramp rate and positive negative-ramp rate), the
`P_out_rel_1` returned by `_calc_P_change` lies between the derived current
relative power `P_out_rel_0` and the target, and the returned heatup lies in
`[0,1]`. -/
theorem P_change_monotone (p : ECCParameter) (ts : ℚ) (st : ECCState)
    (targ : ℚ)
    (h_tstart : 0 < p.t_start) (h_tcool : 0 < p.t_cooldown)
    (hm0 : 0 < p.P_out_min_rel) (_hm1 : p.P_out_min_rel < 1)
    (hpp : 0 ≤ p.p_change_pos) (hpn : 0 < p.p_change_neg)
    (hts : 0 ≤ ts)
    (hh0 : 0 ≤ st.heatup) (_hh1 : st.heatup ≤ 1)
    (hP0 : 0 ≤ st.P_out) (_hPr : st.P_out ≤ p.P_out_rated)
    (hrated : 0 < p.P_out_rated)
    (ht0 : 0 ≤ targ) (_ht1 : targ ≤ 1) :
    min (P_out_rel_0 p st) targ ≤ (calc_P_change p ts st targ).1 ∧
    (calc_P_change p ts st targ).1 ≤ max (P_out_rel_0 p st) targ ∧
    0 ≤ (calc_P_change p ts st targ).2.1 ∧
    (calc_P_change p ts st targ).2.1 ≤ 1 := by
  have hq : 0 ≤ P_out_rel_0 p st := by
    unfold P_out_rel_0
    split
    · exact round6_nonneg (mul_nonneg hh0 hm0.le)
    · exact round6_nonneg (div_nonneg hP0 hrated.le)
  have hfst := calc_P_change_fst p ts st targ
  have hheatup := calc_P_change_heatup p ts st targ
  have hmin : (calc_P_change_raw p ts st targ).2.1 =
      min 1 ((calc_P_change_raw p ts st targ).1 / p.P_out_min_rel) := rfl
  have key : min (P_out_rel_0 p st) targ ≤ (calc_P_change_raw p ts st targ).1 ∧
      (calc_P_change_raw p ts st targ).1 ≤ max (P_out_rel_0 p st) targ := by
    unfold calc_P_change_raw
    dsimp only
    split_ifs with ha hb hc hd he hf hg
    -- [S->S] up
    · dsimp only
      have hd0 : 0 ≤ ts / p.t_start * p.P_out_min_rel := by positivity
      constructor
      · rw [min_eq_left ha]
        exact le_min ha (by linarith)
      · exact (min_le_left _ _).trans (le_max_right _ _)
    -- [S->O], operation reached
    · dsimp only
      have hd0 : 0 ≤ p.p_change_pos / 100 *
          (ts - (p.P_out_min_rel - P_out_rel_0 p st) / p.P_out_min_rel *
            p.t_start) := by
        have := sub_nonneg.mpr hd
        positivity
      constructor
      · rw [min_eq_left ha]
        exact le_min ha (by linarith)
      · exact (min_le_left _ _).trans (le_max_right _ _)
    -- [S->O], operation not reached
    · dsimp only
      have hd0 : 0 ≤ ts / p.t_start * p.P_out_min_rel := by positivity
      constructor
      · rw [min_eq_left ha]
        exact le_min ha (by linarith)
      · exact (min_le_left _ _).trans (le_max_right _ _)
    -- [O->O] up
    · dsimp only
      have hd0 : 0 ≤ p.p_change_pos / 100 * ts := by positivity
      constructor
      · rw [min_eq_left ha]
        exact le_min ha (by linarith)
      · exact (min_le_left _ _).trans (le_max_right _ _)
    -- [O->O] down
    · dsimp only
      have h' : targ ≤ P_out_rel_0 p st := (lt_of_not_ge ha).le
      have hd0 : 0 ≤ p.p_change_neg / 100 * ts := by positivity
      constructor
      · rw [min_eq_right h']
        exact le_max_left _ _
      · rw [max_eq_left h']
        exact max_le h' (by linarith)
    -- [O->S], shutdown reached
    · dsimp only
      have h' : targ ≤ P_out_rel_0 p st := (lt_of_not_ge ha).le
      have hx : 0 ≤ (ts - (P_out_rel_0 p st - p.P_out_min_rel) /
          (p.p_change_neg / 100)) / p.t_cooldown :=
        div_nonneg (by linarith [hg.le]) h_tcool.le
      constructor
      · rw [min_eq_right h']
        exact le_max_left _ _
      · rw [max_eq_left h']
        refine max_le h' ?_
        have hmle : p.P_out_min_rel *
            (1 - (ts - (P_out_rel_0 p st - p.P_out_min_rel) /
              (p.p_change_neg / 100)) / p.t_cooldown) ≤
            p.P_out_min_rel * 1 :=
          mul_le_mul_of_nonneg_left (by linarith) hm0.le
        rw [mul_one] at hmle
        linarith
    -- [O->S], shutdown not reached
    · dsimp only
      have h' : targ ≤ P_out_rel_0 p st := (lt_of_not_ge ha).le
      have hd0 : 0 ≤ p.p_change_neg / 100 * ts := by positivity
      constructor
      · rw [min_eq_right h']
        exact le_max_left _ _
      · rw [max_eq_left h']
        exact max_le h' (by linarith)
    -- [S->S] down
    · dsimp only
      have h' : targ ≤ P_out_rel_0 p st := (lt_of_not_ge ha).le
      have hd0 : 0 ≤ p.P_out_min_rel / p.t_cooldown * ts := by positivity
      constructor
      · rw [min_eq_right h']
        exact le_max_left _ _
      · rw [max_eq_left h']
        exact max_le h' (by linarith)
  refine ⟨?_, ?_, ?_, ?_⟩
  · rw [hfst]; exact key.1
  · rw [hfst]; exact key.2
  · rw [hheatup, hmin]
    have hP1nn : 0 ≤ (calc_P_change_raw p ts st targ).1 :=
      le_trans (le_min hq ht0) key.1
    exact le_min (by norm_num) (div_nonneg hP1nn hm0.le)
  · rw [hheatup, hmin]
    exact min_le_left _ _

/-- Witness for C10 at a concrete ramp-up step of `pcA` from 50 % load
towards full power. -/
theorem P_change_monotone_witness :
    min (P_out_rel_0 pcA stLoad) 1 ≤ (calc_P_change pcA 1 stLoad 1).1 ∧
    (calc_P_change pcA 1 stLoad 1).1 ≤ max (P_out_rel_0 pcA stLoad) 1 ∧
    0 ≤ (calc_P_change pcA 1 stLoad 1).2.1 ∧
    (calc_P_change pcA 1 stLoad 1).2.1 ≤ 1 :=
  P_change_monotone pcA 1 stLoad 1
    (by norm_num [pcA]) (by norm_num [pcA]) (by norm_num [pcA])
    (by norm_num [pcA]) (by norm_num [pcA]) (by norm_num [pcA])
    (by norm_num) (by norm_num [stLoad]) (by norm_num [stLoad])
    (by norm_num [stLoad]) (by norm_num [stLoad, pcA]) (by norm_num [pcA])
    (by norm_num) (by norm_num)

/-- C9 (amended, scenario part): charging the full storage
(`eta = 0.8`, `E_cap = 1`, `SoC = 1`, `autoIncrease`) with `E_req = 2`
grows `E_cap` by exactly the overflow `SoC*E_cap + eta*E_req - E_cap`
and leaves `SoC = 1`, with `E_cap_incr` equal to that growth. -/
theorem storage_overflow_growth :
    (comp9.apply_control 2).map
      (fun c => (c.par.E_cap, c.state.SoC, c.state.E_cap_incr)) =
    some (p9.E_cap + (1 * p9.E_cap + p9.eta * 2 - p9.E_cap), 1,
          1 * p9.E_cap + p9.eta * 2 - p9.E_cap) := by
  norm_num [EnergyStorageComponent.apply_control, comp9, p9,
    ESCParameter.mk.injEq, ESCState.mk.injEq, Prod.ext_iff]

/-- Counterexample to C9 (accumulation part): a subsequent non-overflowing
call resets `E_cap_incr` to `0`, although the accumulated capacity growth
is `13/5 - 1 = 8/5 ≠ 0`. -/
theorem storage_incr_reset :
    ((comp9.apply_control 2).bind
       (fun c => c.apply_control (-(1/2)))).map
      (fun c => (c.par.E_cap, c.state.E_cap_incr)) = some (13/5, 0) ∧
    (0 : ℚ) ≠ 13/5 - p9.E_cap := by
  constructor
  · norm_num [EnergyStorageComponent.apply_control, comp9, p9,
      ESCParameter.mk.injEq, ESCState.mk.injEq, Prod.ext_iff, Option.bind]
  · norm_num [p9]

end EnergySys
